import Mathlib

/-!
# Verification of the LaserSell stream protocol models

This file is a shallow embedding, in Lean, of the protocol crate in
src/lib.rs: the JSON wire values, the message data types, and the
serde-derived encode/decode behaviour of every type in the crate.

JSON documents are modelled as trees (the inductive type Json below).
serde_json renders a document to text and parses text back to the identical
document (integers are kept exactly in a 64-bit integer representation and
finite doubles are printed in shortest round-tripping form), so encoding to
text followed by parsing is modelled as the identity on documents; the
encoders here produce the document that serde_json would render, and the
decoders consume the document that its parser would produce.

Doubles (Rust f64) are modelled by the type F64: a finite double is
identified by its exact numeric value (a rational), and the three
non-finite shapes are separate constructors.  The codec never performs
float arithmetic, so this is a faithful value model.  serde_json casts
integer tokens to f64 when a float field receives an integer; that cast is
modelled exactly (it is lossy above 2 to the 53 in Rust, but no encoder of
this protocol produces integer tokens for float fields).
-/

namespace LaserSellProto

/-- Model of Rust f64: a finite value (identified exactly), or one of the
three non-finite shapes. -/
inductive F64 where
  | finite (v : ℚ)
  | nan
  | inf
  | negInf
deriving DecidableEq

/-- Finite-ness test, matching Rust f64::is_finite. -/
def F64.isFinite : F64 → Bool
  | .finite _ => true
  | _ => false

/-- JSON documents as produced by serde_json's parser and consumed by its
printer.  Number tokens keep the three-way split of serde_json's Number:
a non-negative integer (held as u64), a negative integer (held as i64),
or a finite double. -/
inductive Json where
  | jnull
  | jbool (b : Bool)
  | jnumU (n : ℕ)
  | jnumI (i : ℤ)
  | jnumF (v : ℚ)
  | jstr (s : String)
  | jarr (xs : List Json)
  | jobj (fields : List (String × Json))

/-- Keys of a JSON object (empty for non-objects). -/
def Json.objKeys : Json → List String
  | .jobj fs => fs.map Prod.fst
  | _ => []

/-! ## Primitive field codecs

These model how serde_json's Deserializer hands primitive values to the
derived code: a u64 field accepts exactly a non-negative integer token; the
narrower integer widths additionally range-check; i64 accepts any negative
token (the parser already bounds those to i64) and range-checks
non-negative ones; f64 accepts any number token; String accepts exactly a
string token. -/

def decStr : Json → Except String String
  | .jstr s => .ok s
  | _ => .error "invalid type: expected string"

def decU64 : Json → Except String ℕ
  | .jnumU n => .ok n
  | _ => .error "invalid type: expected u64"

def decU32 : Json → Except String ℕ
  | .jnumU n => if n < 2 ^ 32 then .ok n else .error "u32 out of range"
  | _ => .error "invalid type: expected u32"

def decU16 : Json → Except String ℕ
  | .jnumU n => if n < 2 ^ 16 then .ok n else .error "u16 out of range"
  | _ => .error "invalid type: expected u16"

def decI64 : Json → Except String ℤ
  | .jnumU n => if n < 2 ^ 63 then .ok (n : ℤ) else .error "i64 out of range"
  | .jnumI i => .ok i
  | _ => .error "invalid type: expected i64"

def decF64 : Json → Except String F64
  | .jnumF v => .ok (.finite v)
  | .jnumU n => .ok (.finite (n : ℚ))
  | .jnumI i => .ok (.finite (i : ℚ))
  | _ => .error "invalid type: expected f64"

/-- Option deserialization (serde): an explicit null is None, anything else
is Some of the inner deserialization. -/
def decOpt (d : Json → Except String α) : Json → Except String (Option α)
  | .jnull => .ok none
  | j => (d j).map some

/-- Sequence-of-strings deserialization (Vec of String). -/
def decStrList : List Json → Except String (List String)
  | [] => .ok []
  | j :: rest => do
    let s ← decStr j
    let r ← decStrList rest
    .ok (s :: r)

/-- Models fn deserialize_wallet_pubkeys (src/lib.rs): an untagged choice
between a single string (wrapped into a one-element vector) and a sequence
of strings. -/
def decWallets : Json → Except String (List String)
  | .jstr s => .ok [s]
  | .jarr xs => decStrList xs
  | _ => .error "data did not match any variant of untagged enum WalletPubkeysField"

/-- serde u64 serialization: a non-negative integer token. -/
def encU64 (n : ℕ) : Json := .jnumU n

/-- serde i64 serialization: non-negative values become a non-negative
integer token, negative ones a negative integer token. -/
def encI64 (i : ℤ) : Json := if 0 ≤ i then .jnumU i.toNat else .jnumI i

/-- serde_json f64 serialization: finite doubles become a number token,
non-finite doubles are written as null by serde_json's formatter (it does
not error on them). -/
def encF64 : F64 → Json
  | .finite v => .jnumF v
  | _ => .jnull

/-- One optional struct field on the encode side: with
skip_serializing_if = Option::is_none a None field contributes no entry at
all, a Some field contributes one entry. -/
def optField (k : String) (f : α → Json) : Option α → List (String × Json)
  | none => []
  | some v => [(k, f v)]

/-! ## Generic derived-struct decoding

serde's derived map visitor walks the entries of the input object in order:
a key that is not a known field name (or alias) of the struct is ignored, a
known field seen a second time (also through its alias) is a
"duplicate field" error, and each retained value is deserialized at the
field's type.  After the walk, a missing required field is a
"missing field" error, a missing Option field is None, and a missing
field marked serde(default) takes the default value.

collectFields below performs the walk, resolving each key to its canonical
field name and rejecting duplicates; the per-struct decoders then read the
collected entries field by field.  The derive reports the first error in
entry order while this two-phase model checks duplicates first, but the
set of accepted inputs and the decoded values coincide. -/

/-- Canonical-name resolution for one struct: known field names map to
themselves, aliases map to the field they name, anything else is unknown
(ignored). -/
def canonOf (names : List String) (aliases : List (String × String)) (k : String) :
    Option String :=
  if names.contains k then some k else aliases.lookup k

/-- Walk the object entries, keeping known fields (under their canonical
names, in entry order) and rejecting a field that occurs twice. -/
def collectFields (canon : String → Option String) :
    List (String × Json) → List (String × Json) → Except String (List (String × Json))
  | acc, [] => .ok acc
  | acc, (k, v) :: rest =>
    match canon k with
    | none => collectFields canon acc rest
    | some c =>
      if (acc.lookup c).isSome then .error ("duplicate field " ++ c)
      else collectFields canon (acc ++ [(c, v)]) rest

/-- Read a required field from the collected entries. -/
def reqField (fs : List (String × Json)) (k : String) (d : Json → Except String α) :
    Except String α :=
  match fs.lookup k with
  | some v => d v
  | none => .error ("missing field " ++ k)

/-- Read an Option field from the collected entries: absent (or null when
present) is None. -/
def optJsonField (fs : List (String × Json)) (k : String) (d : Json → Except String α) :
    Except String (Option α) :=
  match fs.lookup k with
  | some v => decOpt d v
  | none => .ok none

/-- Read a serde(default) field from the collected entries. -/
def defField (fs : List (String × Json)) (k : String) (d : Json → Except String α)
    (dflt : α) : Except String α :=
  match fs.lookup k with
  | some v => d v
  | none => .ok dflt

/-! ## Data model (src/lib.rs)

Unsigned Rust integer fields are carried as Nat and signed ones as Int; a
value is constructible in Rust exactly when every such field lies in its
machine range, which the wellformedness predicates below record. -/

/-- enum MarketTypeMsg. -/
inductive MarketTypeMsg where
  | PumpFun
  | PumpSwap
  | MeteoraDbc
  | MeteoraDammV2
  | RaydiumLaunchpad
  | RaydiumCpmm
deriving DecidableEq

/-- struct PumpFunContextMsg (empty marker). -/
structure PumpFunContextMsg where
deriving DecidableEq

/-- struct PumpSwapContextMsg. -/
structure PumpSwapContextMsg where
  pool : String
  global_config : Option String
deriving DecidableEq

/-- struct MeteoraDbcContextMsg. -/
structure MeteoraDbcContextMsg where
  pool : String
  config : String
  quote_mint : String
deriving DecidableEq

/-- struct MeteoraDammV2ContextMsg. -/
structure MeteoraDammV2ContextMsg where
  pool : String
deriving DecidableEq

/-- struct RaydiumLaunchpadContextMsg. -/
structure RaydiumLaunchpadContextMsg where
  pool : String
  config : String
  platform : String
  quote_mint : String
  user_quote_account : String
deriving DecidableEq

/-- struct RaydiumCpmmContextMsg. -/
structure RaydiumCpmmContextMsg where
  pool : String
  config : String
  quote_mint : String
  user_quote_account : String
deriving DecidableEq

/-- struct MarketContextMsg: the discriminator plus six independent
optional sibling payloads. -/
structure MarketContextMsg where
  market_type : MarketTypeMsg
  pumpfun : Option PumpFunContextMsg
  pumpswap : Option PumpSwapContextMsg
  meteora_dbc : Option MeteoraDbcContextMsg
  meteora_damm_v2 : Option MeteoraDammV2ContextMsg
  raydium_launchpad : Option RaydiumLaunchpadContextMsg
  raydium_cpmm : Option RaydiumCpmmContextMsg
deriving DecidableEq

/-- struct StrategyConfigMsg. -/
structure StrategyConfigMsg where
  target_profit_pct : F64
  stop_loss_pct : F64
  deadline_timeout_sec : ℕ
deriving DecidableEq

/-- struct LimitsMsg. -/
structure LimitsMsg where
  hi_capacity : ℕ
  pnl_flush_ms : ℕ
  max_positions_per_session : ℕ
  max_wallets_per_session : ℕ
  max_positions_per_wallet : ℕ
  max_sessions_per_api_key : ℕ
deriving DecidableEq

/-- enum ClientMessage. -/
inductive ClientMessage where
  | Ping (client_time_ms : ℕ)
  | Configure (wallet_pubkeys : List String) (strategy : StrategyConfigMsg)
  | UpdateStrategy (strategy : StrategyConfigMsg)
  | ClosePosition (position_id : Option ℕ) (token_account : Option String)
  | RequestExitSignal (position_id : Option ℕ) (token_account : Option String)
      (slippage_bps : Option ℕ)
deriving DecidableEq

/-- enum ServerMessage. -/
inductive ServerMessage where
  | HelloOk (session_id : ℕ) (server_time_ms : ℕ) (limits : LimitsMsg)
  | Pong (server_time_ms : ℕ)
  | Error (code : String) (message : String)
  | PnlUpdate (position_id : ℕ) (profit_units : ℤ) (proceeds_units : ℕ)
      (server_time_ms : ℕ)
  | BalanceUpdate (wallet_pubkey : String) (mint : String)
      (token_account : Option String) (token_program : Option String)
      (tokens : ℕ) (slot : ℕ)
  | PositionOpened (position_id : ℕ) (wallet_pubkey : String) (mint : String)
      (token_account : String) (token_program : Option String)
      (tokens : ℕ) (entry_quote_units : ℕ)
      (market_context : Option MarketContextMsg) (slot : ℕ)
  | PositionClosed (position_id : ℕ) (wallet_pubkey : String) (mint : String)
      (token_account : Option String) (reason : String) (slot : ℕ)
  | ExitSignalWithTx (session_id : ℕ) (position_id : ℕ) (wallet_pubkey : String)
      (mint : String) (token_account : Option String)
      (token_program : Option String) (position_tokens : ℕ)
      (profit_units : ℤ) (reason : String) (triggered_at_ms : ℕ)
      (market_context : Option MarketContextMsg) (unsigned_tx_b64 : String)
deriving DecidableEq

/-! ## Encoders -/

/-- Wire tag of a MarketTypeMsg (rename_all = snake_case). -/
def MarketTypeMsg.tag : MarketTypeMsg → String
  | .PumpFun => "pump_fun"
  | .PumpSwap => "pump_swap"
  | .MeteoraDbc => "meteora_dbc"
  | .MeteoraDammV2 => "meteora_damm_v2"
  | .RaydiumLaunchpad => "raydium_launchpad"
  | .RaydiumCpmm => "raydium_cpmm"

/-- Serialize MarketTypeMsg (a unit-variant enum serializes as its tag). -/
def MarketTypeMsg.enc (m : MarketTypeMsg) : Json := .jstr m.tag

/-- Serialize PumpFunContextMsg. -/
def PumpFunContextMsg.enc (_ : PumpFunContextMsg) : Json := .jobj []

/-- Serialize PumpSwapContextMsg. -/
def PumpSwapContextMsg.enc (c : PumpSwapContextMsg) : Json :=
  .jobj ([("pool", .jstr c.pool)] ++ optField "global_config" .jstr c.global_config)

/-- Serialize MeteoraDbcContextMsg. -/
def MeteoraDbcContextMsg.enc (c : MeteoraDbcContextMsg) : Json :=
  .jobj [("pool", .jstr c.pool), ("config", .jstr c.config),
    ("quote_mint", .jstr c.quote_mint)]

/-- Serialize MeteoraDammV2ContextMsg. -/
def MeteoraDammV2ContextMsg.enc (c : MeteoraDammV2ContextMsg) : Json :=
  .jobj [("pool", .jstr c.pool)]

/-- Serialize RaydiumLaunchpadContextMsg. -/
def RaydiumLaunchpadContextMsg.enc (c : RaydiumLaunchpadContextMsg) : Json :=
  .jobj [("pool", .jstr c.pool), ("config", .jstr c.config),
    ("platform", .jstr c.platform), ("quote_mint", .jstr c.quote_mint),
    ("user_quote_account", .jstr c.user_quote_account)]

/-- Serialize RaydiumCpmmContextMsg. -/
def RaydiumCpmmContextMsg.enc (c : RaydiumCpmmContextMsg) : Json :=
  .jobj [("pool", .jstr c.pool), ("config", .jstr c.config),
    ("quote_mint", .jstr c.quote_mint),
    ("user_quote_account", .jstr c.user_quote_account)]

/-- Serialize MarketContextMsg: market_type, then each sibling field that
is Some (None siblings are skipped entirely by
skip_serializing_if = Option::is_none). -/
def MarketContextMsg.enc (c : MarketContextMsg) : Json :=
  .jobj ([("market_type", c.market_type.enc)]
    ++ optField "pumpfun" PumpFunContextMsg.enc c.pumpfun
    ++ optField "pumpswap" PumpSwapContextMsg.enc c.pumpswap
    ++ optField "meteora_dbc" MeteoraDbcContextMsg.enc c.meteora_dbc
    ++ optField "meteora_damm_v2" MeteoraDammV2ContextMsg.enc c.meteora_damm_v2
    ++ optField "raydium_launchpad" RaydiumLaunchpadContextMsg.enc c.raydium_launchpad
    ++ optField "raydium_cpmm" RaydiumCpmmContextMsg.enc c.raydium_cpmm)

/-- Serialize StrategyConfigMsg. -/
def StrategyConfigMsg.enc (s : StrategyConfigMsg) : Json :=
  .jobj [("target_profit_pct", encF64 s.target_profit_pct),
    ("stop_loss_pct", encF64 s.stop_loss_pct),
    ("deadline_timeout_sec", encU64 s.deadline_timeout_sec)]

/-- Serialize LimitsMsg (serde(default) affects decode only; all six
fields are always written). -/
def LimitsMsg.enc (l : LimitsMsg) : Json :=
  .jobj [("hi_capacity", encU64 l.hi_capacity),
    ("pnl_flush_ms", encU64 l.pnl_flush_ms),
    ("max_positions_per_session", encU64 l.max_positions_per_session),
    ("max_wallets_per_session", encU64 l.max_wallets_per_session),
    ("max_positions_per_wallet", encU64 l.max_positions_per_wallet),
    ("max_sessions_per_api_key", encU64 l.max_sessions_per_api_key)]

/-- Serialize ClientMessage: internal tag "type" first (snake_case variant
name; RequestExitSignal always writes request_exit_signal, never the
legacy alias), then the variant fields in declaration order, Option fields
skipped when None. -/
def ClientMessage.enc : ClientMessage → Json
  | .Ping t => .jobj [("type", .jstr "ping"), ("client_time_ms", encU64 t)]
  | .Configure ws s => .jobj [("type", .jstr "configure"),
      ("wallet_pubkeys", .jarr (ws.map .jstr)), ("strategy", s.enc)]
  | .UpdateStrategy s => .jobj [("type", .jstr "update_strategy"), ("strategy", s.enc)]
  | .ClosePosition pid ta => .jobj ([("type", .jstr "close_position")]
      ++ optField "position_id" encU64 pid
      ++ optField "token_account" .jstr ta)
  | .RequestExitSignal pid ta sl => .jobj ([("type", .jstr "request_exit_signal")]
      ++ optField "position_id" encU64 pid
      ++ optField "token_account" .jstr ta
      ++ optField "slippage_bps" encU64 sl)

/-- Serialize ServerMessage (same tagging scheme as ClientMessage). -/
def ServerMessage.enc : ServerMessage → Json
  | .HelloOk sid st l => .jobj [("type", .jstr "hello_ok"),
      ("session_id", encU64 sid), ("server_time_ms", encU64 st), ("limits", l.enc)]
  | .Pong st => .jobj [("type", .jstr "pong"), ("server_time_ms", encU64 st)]
  | .Error c m => .jobj [("type", .jstr "error"), ("code", .jstr c), ("message", .jstr m)]
  | .PnlUpdate pid pu prc st => .jobj [("type", .jstr "pnl_update"),
      ("position_id", encU64 pid), ("profit_units", encI64 pu),
      ("proceeds_units", encU64 prc), ("server_time_ms", encU64 st)]
  | .BalanceUpdate w m ta tp tk sl => .jobj ([("type", .jstr "balance_update"),
      ("wallet_pubkey", .jstr w), ("mint", .jstr m)]
      ++ optField "token_account" .jstr ta
      ++ optField "token_program" .jstr tp
      ++ [("tokens", encU64 tk), ("slot", encU64 sl)])
  | .PositionOpened pid w m ta tp tk eq mc sl => .jobj ([("type", .jstr "position_opened"),
      ("position_id", encU64 pid), ("wallet_pubkey", .jstr w), ("mint", .jstr m),
      ("token_account", .jstr ta)]
      ++ optField "token_program" .jstr tp
      ++ [("tokens", encU64 tk), ("entry_quote_units", encU64 eq)]
      ++ optField "market_context" MarketContextMsg.enc mc
      ++ [("slot", encU64 sl)])
  | .PositionClosed pid w m ta r sl => .jobj ([("type", .jstr "position_closed"),
      ("position_id", encU64 pid), ("wallet_pubkey", .jstr w), ("mint", .jstr m)]
      ++ optField "token_account" .jstr ta
      ++ [("reason", .jstr r), ("slot", encU64 sl)])
  | .ExitSignalWithTx sid pid w m ta tp pt pu r tr mc tx =>
      .jobj ([("type", .jstr "exit_signal_with_tx"),
      ("session_id", encU64 sid), ("position_id", encU64 pid),
      ("wallet_pubkey", .jstr w), ("mint", .jstr m)]
      ++ optField "token_account" .jstr ta
      ++ optField "token_program" .jstr tp
      ++ [("position_tokens", encU64 pt), ("profit_units", encI64 pu),
        ("reason", .jstr r), ("triggered_at_ms", encU64 tr)]
      ++ optField "market_context" MarketContextMsg.enc mc
      ++ [("unsigned_tx_b64", .jstr tx)])

/-! ## Decoders -/

/-- Deserialize MarketTypeMsg: exactly the six snake_case tags are
accepted, anything else is an unknown-variant error. -/
def MarketTypeMsg.dec : Json → Except String MarketTypeMsg
  | .jstr "pump_fun" => .ok .PumpFun
  | .jstr "pump_swap" => .ok .PumpSwap
  | .jstr "meteora_dbc" => .ok .MeteoraDbc
  | .jstr "meteora_damm_v2" => .ok .MeteoraDammV2
  | .jstr "raydium_launchpad" => .ok .RaydiumLaunchpad
  | .jstr "raydium_cpmm" => .ok .RaydiumCpmm
  | _ => .error "unknown variant of MarketTypeMsg"

/-- Deserialize PumpFunContextMsg: any object (all fields unknown, hence
ignored). -/
def PumpFunContextMsg.dec : Json → Except String PumpFunContextMsg
  | .jobj _ => .ok ⟨⟩
  | _ => .error "invalid type: expected object"

/-- Deserialize PumpSwapContextMsg. -/
def PumpSwapContextMsg.dec : Json → Except String PumpSwapContextMsg
  | .jobj entries => do
    let fs ← collectFields (canonOf ["pool", "global_config"] []) [] entries
    let pool ← reqField fs "pool" decStr
    let global_config ← optJsonField fs "global_config" decStr
    .ok { pool, global_config }
  | _ => .error "invalid type: expected object"

/-- Deserialize MeteoraDbcContextMsg. -/
def MeteoraDbcContextMsg.dec : Json → Except String MeteoraDbcContextMsg
  | .jobj entries => do
    let fs ← collectFields (canonOf ["pool", "config", "quote_mint"] []) [] entries
    let pool ← reqField fs "pool" decStr
    let config ← reqField fs "config" decStr
    let quote_mint ← reqField fs "quote_mint" decStr
    .ok { pool, config, quote_mint }
  | _ => .error "invalid type: expected object"

/-- Deserialize MeteoraDammV2ContextMsg. -/
def MeteoraDammV2ContextMsg.dec : Json → Except String MeteoraDammV2ContextMsg
  | .jobj entries => do
    let fs ← collectFields (canonOf ["pool"] []) [] entries
    let pool ← reqField fs "pool" decStr
    .ok { pool }
  | _ => .error "invalid type: expected object"

/-- Deserialize RaydiumLaunchpadContextMsg. -/
def RaydiumLaunchpadContextMsg.dec : Json → Except String RaydiumLaunchpadContextMsg
  | .jobj entries => do
    let fs ← collectFields
      (canonOf ["pool", "config", "platform", "quote_mint", "user_quote_account"] [])
      [] entries
    let pool ← reqField fs "pool" decStr
    let config ← reqField fs "config" decStr
    let platform ← reqField fs "platform" decStr
    let quote_mint ← reqField fs "quote_mint" decStr
    let user_quote_account ← reqField fs "user_quote_account" decStr
    .ok { pool, config, platform, quote_mint, user_quote_account }
  | _ => .error "invalid type: expected object"

/-- Deserialize RaydiumCpmmContextMsg. -/
def RaydiumCpmmContextMsg.dec : Json → Except String RaydiumCpmmContextMsg
  | .jobj entries => do
    let fs ← collectFields
      (canonOf ["pool", "config", "quote_mint", "user_quote_account"] []) [] entries
    let pool ← reqField fs "pool" decStr
    let config ← reqField fs "config" decStr
    let quote_mint ← reqField fs "quote_mint" decStr
    let user_quote_account ← reqField fs "user_quote_account" decStr
    .ok { pool, config, quote_mint, user_quote_account }
  | _ => .error "invalid type: expected object"

/-- Deserialize MarketContextMsg: market_type is required, each sibling is
an independent Option field (absent or null gives None); no cross-field
invariant is checked. -/
def MarketContextMsg.dec : Json → Except String MarketContextMsg
  | .jobj entries => do
    let fs ← collectFields
      (canonOf ["market_type", "pumpfun", "pumpswap", "meteora_dbc",
        "meteora_damm_v2", "raydium_launchpad", "raydium_cpmm"] []) [] entries
    let market_type ← reqField fs "market_type" MarketTypeMsg.dec
    let pumpfun ← optJsonField fs "pumpfun" PumpFunContextMsg.dec
    let pumpswap ← optJsonField fs "pumpswap" PumpSwapContextMsg.dec
    let meteora_dbc ← optJsonField fs "meteora_dbc" MeteoraDbcContextMsg.dec
    let meteora_damm_v2 ← optJsonField fs "meteora_damm_v2" MeteoraDammV2ContextMsg.dec
    let raydium_launchpad ← optJsonField fs "raydium_launchpad" RaydiumLaunchpadContextMsg.dec
    let raydium_cpmm ← optJsonField fs "raydium_cpmm" RaydiumCpmmContextMsg.dec
    .ok ⟨market_type, pumpfun, pumpswap, meteora_dbc, meteora_damm_v2,
      raydium_launchpad, raydium_cpmm⟩
  | _ => .error "invalid type: expected object"

/-- Deserialize StrategyConfigMsg (all three fields required). -/
def StrategyConfigMsg.dec : Json → Except String StrategyConfigMsg
  | .jobj entries => do
    let fs ← collectFields
      (canonOf ["target_profit_pct", "stop_loss_pct", "deadline_timeout_sec"] []) [] entries
    let target_profit_pct ← reqField fs "target_profit_pct" decF64
    let stop_loss_pct ← reqField fs "stop_loss_pct" decF64
    let deadline_timeout_sec ← reqField fs "deadline_timeout_sec" decU64
    .ok { target_profit_pct, stop_loss_pct, deadline_timeout_sec }
  | _ => .error "invalid type: expected object"

/-- Deserialize LimitsMsg: hi_capacity, pnl_flush_ms and
max_positions_per_session are required; the three serde(default) fields
take 0 (u32 Default) when absent. -/
def LimitsMsg.dec : Json → Except String LimitsMsg
  | .jobj entries => do
    let fs ← collectFields
      (canonOf ["hi_capacity", "pnl_flush_ms", "max_positions_per_session",
        "max_wallets_per_session", "max_positions_per_wallet",
        "max_sessions_per_api_key"] []) [] entries
    let hi_capacity ← reqField fs "hi_capacity" decU32
    let pnl_flush_ms ← reqField fs "pnl_flush_ms" decU64
    let max_positions_per_session ← reqField fs "max_positions_per_session" decU32
    let max_wallets_per_session ← defField fs "max_wallets_per_session" decU32 0
    let max_positions_per_wallet ← defField fs "max_positions_per_wallet" decU32 0
    let max_sessions_per_api_key ← defField fs "max_sessions_per_api_key" decU32 0
    .ok ⟨hi_capacity, pnl_flush_ms, max_positions_per_session,
      max_wallets_per_session, max_positions_per_wallet, max_sessions_per_api_key⟩
  | _ => .error "invalid type: expected object"

/-- Models serde's internally-tagged walk: scan the entries in order,
taking the value of the tag field (which must be a string, and must not
occur twice) and buffering every other entry in order; a missing tag is an
error. -/
def extractTag (tagKey : String) :
    Option String → List (String × Json) → List (String × Json) →
    Except String (String × List (String × Json))
  | found, acc, [] =>
    match found with
    | some t => .ok (t, acc)
    | none => .error ("missing field " ++ tagKey)
  | found, acc, (k, v) :: rest =>
    if k = tagKey then
      match found with
      | some _ => .error ("duplicate field " ++ tagKey)
      | none =>
        match v with
        | .jstr t => extractTag tagKey (some t) acc rest
        | _ => .error "invalid type: tag must be a string"
    else extractTag tagKey found (acc ++ [(k, v)]) rest

/-- Deserialize ClientMessage: resolve the "type" tag (request_exit_signal
also accepts the legacy tag sell_now; anything else unknown is an error),
then decode the variant fields from the remaining entries.  The
wallet_pubkeys field of Configure also accepts the legacy alias
wallet_pubkey, and its value goes through deserialize_wallet_pubkeys. -/
def ClientMessage.dec : Json → Except String ClientMessage
  | .jobj entries => do
    let (tag, fields) ← extractTag "type" none [] entries
    match tag with
    | "ping" => do
      let fs ← collectFields (canonOf ["client_time_ms"] []) [] fields
      let t ← reqField fs "client_time_ms" decU64
      .ok (.Ping t)
    | "configure" => do
      let fs ← collectFields
        (canonOf ["wallet_pubkeys", "strategy"]
          [("wallet_pubkey", "wallet_pubkeys")]) [] fields
      let ws ← reqField fs "wallet_pubkeys" decWallets
      let s ← reqField fs "strategy" StrategyConfigMsg.dec
      .ok (.Configure ws s)
    | "update_strategy" => do
      let fs ← collectFields (canonOf ["strategy"] []) [] fields
      let s ← reqField fs "strategy" StrategyConfigMsg.dec
      .ok (.UpdateStrategy s)
    | "close_position" => do
      let fs ← collectFields (canonOf ["position_id", "token_account"] []) [] fields
      let pid ← optJsonField fs "position_id" decU64
      let ta ← optJsonField fs "token_account" decStr
      .ok (.ClosePosition pid ta)
    | "request_exit_signal" | "sell_now" => do
      let fs ← collectFields
        (canonOf ["position_id", "token_account", "slippage_bps"] []) [] fields
      let pid ← optJsonField fs "position_id" decU64
      let ta ← optJsonField fs "token_account" decStr
      let sl ← optJsonField fs "slippage_bps" decU16
      .ok (.RequestExitSignal pid ta sl)
    | _ => .error ("unknown variant " ++ tag)
  | _ => .error "invalid type: expected object"

/-- Deserialize ServerMessage. -/
def ServerMessage.dec : Json → Except String ServerMessage
  | .jobj entries => do
    let (tag, fields) ← extractTag "type" none [] entries
    match tag with
    | "hello_ok" => do
      let fs ← collectFields
        (canonOf ["session_id", "server_time_ms", "limits"] []) [] fields
      let sid ← reqField fs "session_id" decU64
      let st ← reqField fs "server_time_ms" decU64
      let l ← reqField fs "limits" LimitsMsg.dec
      .ok (.HelloOk sid st l)
    | "pong" => do
      let fs ← collectFields (canonOf ["server_time_ms"] []) [] fields
      let st ← reqField fs "server_time_ms" decU64
      .ok (.Pong st)
    | "error" => do
      let fs ← collectFields (canonOf ["code", "message"] []) [] fields
      let c ← reqField fs "code" decStr
      let m ← reqField fs "message" decStr
      .ok (.Error c m)
    | "pnl_update" => do
      let fs ← collectFields
        (canonOf ["position_id", "profit_units", "proceeds_units",
          "server_time_ms"] []) [] fields
      let pid ← reqField fs "position_id" decU64
      let pu ← reqField fs "profit_units" decI64
      let prc ← reqField fs "proceeds_units" decU64
      let st ← reqField fs "server_time_ms" decU64
      .ok (.PnlUpdate pid pu prc st)
    | "balance_update" => do
      let fs ← collectFields
        (canonOf ["wallet_pubkey", "mint", "token_account", "token_program",
          "tokens", "slot"] []) [] fields
      let w ← reqField fs "wallet_pubkey" decStr
      let m ← reqField fs "mint" decStr
      let ta ← optJsonField fs "token_account" decStr
      let tp ← optJsonField fs "token_program" decStr
      let tk ← reqField fs "tokens" decU64
      let sl ← reqField fs "slot" decU64
      .ok (.BalanceUpdate w m ta tp tk sl)
    | "position_opened" => do
      let fs ← collectFields
        (canonOf ["position_id", "wallet_pubkey", "mint", "token_account",
          "token_program", "tokens", "entry_quote_units", "market_context",
          "slot"] []) [] fields
      let pid ← reqField fs "position_id" decU64
      let w ← reqField fs "wallet_pubkey" decStr
      let m ← reqField fs "mint" decStr
      let ta ← reqField fs "token_account" decStr
      let tp ← optJsonField fs "token_program" decStr
      let tk ← reqField fs "tokens" decU64
      let eq ← reqField fs "entry_quote_units" decU64
      let mc ← optJsonField fs "market_context" MarketContextMsg.dec
      let sl ← reqField fs "slot" decU64
      .ok (.PositionOpened pid w m ta tp tk eq mc sl)
    | "position_closed" => do
      let fs ← collectFields
        (canonOf ["position_id", "wallet_pubkey", "mint", "token_account",
          "reason", "slot"] []) [] fields
      let pid ← reqField fs "position_id" decU64
      let w ← reqField fs "wallet_pubkey" decStr
      let m ← reqField fs "mint" decStr
      let ta ← optJsonField fs "token_account" decStr
      let r ← reqField fs "reason" decStr
      let sl ← reqField fs "slot" decU64
      .ok (.PositionClosed pid w m ta r sl)
    | "exit_signal_with_tx" => do
      let fs ← collectFields
        (canonOf ["session_id", "position_id", "wallet_pubkey", "mint",
          "token_account", "token_program", "position_tokens", "profit_units",
          "reason", "triggered_at_ms", "market_context", "unsigned_tx_b64"] [])
        [] fields
      let sid ← reqField fs "session_id" decU64
      let pid ← reqField fs "position_id" decU64
      let w ← reqField fs "wallet_pubkey" decStr
      let m ← reqField fs "mint" decStr
      let ta ← optJsonField fs "token_account" decStr
      let tp ← optJsonField fs "token_program" decStr
      let pt ← reqField fs "position_tokens" decU64
      let pu ← reqField fs "profit_units" decI64
      let r ← reqField fs "reason" decStr
      let tr ← reqField fs "triggered_at_ms" decU64
      let mc ← optJsonField fs "market_context" MarketContextMsg.dec
      let tx ← reqField fs "unsigned_tx_b64" decStr
      .ok (.ExitSignalWithTx sid pid w m ta tp pt pu r tr mc tx)
    | _ => .error ("unknown variant " ++ tag)
  | _ => .error "invalid type: expected object"

/-! ## The named text-level API

The Rust crate exposes ClientMessage::from_text (serde_json::from_str) and
ServerMessage::to_text (serde_json::to_string, whose Result never errs for
these types: serde_json writes non-finite floats as null rather than
failing); the opposite directions exist through the serde derives and are
used by the crate's tests. -/

/-- ClientMessage::from_text. -/
def ClientMessage.from_text : Json → Except String ClientMessage :=
  ClientMessage.dec

/-- Serialization of a ClientMessage through serde_json::to_string. -/
def ClientMessage.to_text (m : ClientMessage) : Except String Json :=
  .ok m.enc

/-- ServerMessage::to_text. -/
def ServerMessage.to_text (m : ServerMessage) : Except String Json :=
  .ok m.enc

/-- Deserialization of a ServerMessage through serde_json::from_str. -/
def ServerMessage.from_text : Json → Except String ServerMessage :=
  ServerMessage.dec

/-! ## Wellformedness: Rust constructibility

A message value is constructible in Rust exactly when every integer field
lies in the range of its machine type (the model carries Nat and Int).
Finiteness of float fields is NOT part of constructibility: Rust f64
admits NaN and the infinities. -/

/-- Integer ranges of StrategyConfigMsg plus finiteness of its two float
fields (the latter is an extra assumption, not a constructibility fact). -/
def StrategyConfigMsg.WfFin (s : StrategyConfigMsg) : Prop :=
  s.target_profit_pct.isFinite = true ∧ s.stop_loss_pct.isFinite = true ∧
    s.deadline_timeout_sec < 2 ^ 64

/-- Integer ranges of LimitsMsg fields (u32 and u64). -/
def LimitsMsg.Wf (l : LimitsMsg) : Prop :=
  l.hi_capacity < 2 ^ 32 ∧ l.pnl_flush_ms < 2 ^ 64 ∧
    l.max_positions_per_session < 2 ^ 32 ∧ l.max_wallets_per_session < 2 ^ 32 ∧
    l.max_positions_per_wallet < 2 ^ 32 ∧ l.max_sessions_per_api_key < 2 ^ 32

/-- Integer ranges of a ClientMessage value, plus finiteness of any float
field it carries. -/
def ClientMessage.Wf : ClientMessage → Prop
  | .Ping t => t < 2 ^ 64
  | .Configure _ s => s.WfFin
  | .UpdateStrategy s => s.WfFin
  | .ClosePosition pid _ => ∀ p ∈ pid, p < 2 ^ 64
  | .RequestExitSignal pid _ sl =>
      (∀ p ∈ pid, p < 2 ^ 64) ∧ (∀ s ∈ sl, s < 2 ^ 16)

/-- Integer ranges of a ServerMessage value (i64 fields are two-sided). -/
def ServerMessage.Wf : ServerMessage → Prop
  | .HelloOk sid st l => sid < 2 ^ 64 ∧ st < 2 ^ 64 ∧ l.Wf
  | .Pong st => st < 2 ^ 64
  | .Error _ _ => True
  | .PnlUpdate pid pu prc st =>
      pid < 2 ^ 64 ∧ -(2 ^ 63) ≤ pu ∧ pu < 2 ^ 63 ∧ prc < 2 ^ 64 ∧ st < 2 ^ 64
  | .BalanceUpdate _ _ _ _ tk sl => tk < 2 ^ 64 ∧ sl < 2 ^ 64
  | .PositionOpened pid _ _ _ _ tk eq _ sl =>
      pid < 2 ^ 64 ∧ tk < 2 ^ 64 ∧ eq < 2 ^ 64 ∧ sl < 2 ^ 64
  | .PositionClosed pid _ _ _ _ sl => pid < 2 ^ 64 ∧ sl < 2 ^ 64
  | .ExitSignalWithTx sid pid _ _ _ _ pt pu _ tr _ _ =>
      sid < 2 ^ 64 ∧ pid < 2 ^ 64 ∧ pt < 2 ^ 64 ∧
        -(2 ^ 63) ≤ pu ∧ pu < 2 ^ 63 ∧ tr < 2 ^ 64

/-! ## Evaluation lemmas for the decoding machinery

Small rewrite rules that let decode run symbolically over encoded entry
lists whose optional segments carry an undetermined Option value. -/

theorem ok_bind (a : α) (f : α → Except String β) :
    ((Except.ok a : Except String α) >>= f) = f a := rfl

theorem lookup_cons_self (k : String) (v : Json) (rest : List (String × Json)) :
    ((k, v) :: rest).lookup k = some v := by simp [List.lookup]

theorem lookup_cons_ne (k k1 : String) (v : Json) (rest : List (String × Json))
    (h : k ≠ k1) : ((k1, v) :: rest).lookup k = rest.lookup k := by
  simp [List.lookup, beq_eq_false_iff_ne.mpr h]

theorem lookup_opt_ne (k k1 : String) (f : α → Json) (o : Option α)
    (rest : List (String × Json)) (h : k ≠ k1) :
    ((optField k1 f o) ++ rest).lookup k = rest.lookup k := by
  cases o <;> simp [optField, lookup_cons_ne _ _ _ _ h]

theorem lookup_opt_end_ne (k k1 : String) (f : α → Json) (o : Option α) (h : k ≠ k1) :
    (optField k1 f o).lookup k = none := by
  cases o <;> simp [optField, List.lookup, beq_eq_false_iff_ne.mpr h]

theorem collect_entry (canon : String → Option String) (acc : List (String × Json))
    (k : String) (v : Json) (rest : List (String × Json)) (hc : canon k = some k)
    (hl : acc.lookup k = none) :
    collectFields canon acc ((k, v) :: rest) = collectFields canon (acc ++ [(k, v)]) rest := by
  simp [collectFields, hc, hl]

theorem collect_opt (canon : String → Option String) (acc : List (String × Json))
    (k : String) (f : α → Json) (o : Option α) (rest : List (String × Json))
    (hc : canon k = some k) (hl : acc.lookup k = none) :
    collectFields canon acc ((optField k f o) ++ rest) =
      collectFields canon (acc ++ optField k f o) rest := by
  cases o <;> simp [optField, collectFields, hc, hl]

theorem collect_opt_end (canon : String → Option String) (acc : List (String × Json))
    (k : String) (f : α → Json) (o : Option α)
    (hc : canon k = some k) (hl : acc.lookup k = none) :
    collectFields canon acc (optField k f o) = .ok (acc ++ optField k f o) := by
  cases o <;> simp [optField, collectFields, hc, hl]

theorem collect_nil (canon : String → Option String) (acc : List (String × Json)) :
    collectFields canon acc [] = .ok acc := rfl

theorem reqField_cons_self (k : String) (v : Json) (rest : List (String × Json))
    (d : Json → Except String α) : reqField ((k, v) :: rest) k d = d v := by
  simp [reqField, lookup_cons_self]

theorem reqField_cons_ne (k k1 : String) (v : Json) (rest : List (String × Json))
    (d : Json → Except String α) (h : k ≠ k1) :
    reqField ((k1, v) :: rest) k d = reqField rest k d := by
  simp [reqField, lookup_cons_ne _ _ _ _ h]

theorem reqField_opt_ne (k k1 : String) (f : β → Json) (o : Option β)
    (rest : List (String × Json)) (d : Json → Except String α) (h : k ≠ k1) :
    reqField ((optField k1 f o) ++ rest) k d = reqField rest k d := by
  simp [reqField, lookup_opt_ne _ _ _ _ _ h]

theorem optJsonField_cons_self (k : String) (v : Json) (rest : List (String × Json))
    (d : Json → Except String α) : optJsonField ((k, v) :: rest) k d = decOpt d v := by
  simp [optJsonField, lookup_cons_self]

theorem optJsonField_cons_ne (k k1 : String) (v : Json) (rest : List (String × Json))
    (d : Json → Except String α) (h : k ≠ k1) :
    optJsonField ((k1, v) :: rest) k d = optJsonField rest k d := by
  simp [optJsonField, lookup_cons_ne _ _ _ _ h]

theorem optJsonField_opt_ne (k k1 : String) (f : β → Json) (o : Option β)
    (rest : List (String × Json)) (d : Json → Except String α) (h : k ≠ k1) :
    optJsonField ((optField k1 f o) ++ rest) k d = optJsonField rest k d := by
  simp [optJsonField, lookup_opt_ne _ _ _ _ _ h]

theorem optJsonField_opt_self (k : String) (f : β → Json) (o : Option β)
    (rest : List (String × Json)) (d : Json → Except String β)
    (hrest : rest.lookup k = none)
    (hd : ∀ v, o = some v → decOpt d (f v) = .ok (some v)) :
    optJsonField ((optField k f o) ++ rest) k d = .ok o := by
  cases o with
  | none => simp [optField, optJsonField, hrest]
  | some v => simp [optField, optJsonField, lookup_cons_self, hd v rfl]

theorem optJsonField_opt_end_self (k : String) (f : β → Json) (o : Option β)
    (d : Json → Except String β)
    (hd : ∀ v, o = some v → decOpt d (f v) = .ok (some v)) :
    optJsonField (optField k f o) k d = .ok o := by
  cases o with
  | none => rfl
  | some v => simp [optField, optJsonField, lookup_cons_self, hd v rfl]

theorem defField_cons_self (k : String) (v : Json) (rest : List (String × Json))
    (d : Json → Except String α) (dflt : α) :
    defField ((k, v) :: rest) k d dflt = d v := by
  simp [defField, lookup_cons_self]

theorem defField_cons_ne (k k1 : String) (v : Json) (rest : List (String × Json))
    (d : Json → Except String α) (dflt : α) (h : k ≠ k1) :
    defField ((k1, v) :: rest) k d dflt = defField rest k d dflt := by
  simp [defField, lookup_cons_ne _ _ _ _ h]

theorem defField_nil (k : String) (d : Json → Except String α) (dflt : α) :
    defField [] k d dflt = .ok dflt := rfl

theorem extract_tag_here (tk t : String) (acc rest : List (String × Json)) :
    extractTag tk none acc ((tk, .jstr t) :: rest) = extractTag tk (some t) acc rest := by
  simp [extractTag]

theorem extract_entry (tk k : String) (found : Option String)
    (acc : List (String × Json)) (v : Json) (rest : List (String × Json)) (h : k ≠ tk) :
    extractTag tk found acc ((k, v) :: rest) =
      extractTag tk found (acc ++ [(k, v)]) rest := by
  simp [extractTag, h]

theorem extract_opt (tk k : String) (f : α → Json) (o : Option α)
    (found : Option String) (acc rest : List (String × Json)) (h : k ≠ tk) :
    extractTag tk found acc ((optField k f o) ++ rest) =
      extractTag tk found (acc ++ optField k f o) rest := by
  cases o <;> simp [optField, extractTag, h]

theorem extract_opt_end (tk k : String) (f : α → Json) (o : Option α) (t : String)
    (acc : List (String × Json)) (h : k ≠ tk) :
    extractTag tk (some t) acc (optField k f o) = .ok (t, acc ++ optField k f o) := by
  cases o <;> simp [optField, extractTag, h]

theorem extract_done (tk t : String) (acc : List (String × Json)) :
    extractTag tk (some t) acc [] = .ok (t, acc) := rfl

/-! ## Leaf round-trip lemmas -/

theorem decU32_ok (n : ℕ) (h : n < 2 ^ 32) : decU32 (.jnumU n) = .ok n := by
  simp [decU32]
  omega

theorem decU16_ok (n : ℕ) (h : n < 2 ^ 16) : decU16 (.jnumU n) = .ok n := by
  simp [decU16]
  omega

theorem decI64_rt (i : ℤ) (h1 : -(2 ^ 63) ≤ i) (h2 : i < 2 ^ 63) :
    decI64 (encI64 i) = .ok i := by
  rcases le_or_lt 0 i with hp | hn
  · have hlt : i.toNat < 2 ^ 63 := by omega
    have hv : ((i.toNat : ℤ)) = i := Int.toNat_of_nonneg hp
    simp [encI64, hp, decI64, hv]
    omega
  · simp [encI64, decI64, not_le.mpr hn]

theorem decOpt_u64 (n : ℕ) : decOpt decU64 (encU64 n) = .ok (some n) := rfl

theorem decOpt_u16 (n : ℕ) (h : n < 2 ^ 16) : decOpt decU16 (encU64 n) = .ok (some n) := by
  simp [encU64, decOpt, decU16_ok _ h, Except.map]

theorem decOpt_jstr (s : String) : decOpt decStr (.jstr s) = .ok (some s) := rfl

theorem decStr_jstr (s : String) : decStr (.jstr s) = .ok s := rfl

theorem decWallets_arr (ws : List String) : decWallets (.jarr (ws.map .jstr)) = .ok ws := by
  show decStrList (ws.map .jstr) = .ok ws
  induction ws with
  | nil => rfl
  | cons a t ih => simp [decStrList, decStr, ih, ok_bind]

theorem mt_rt (m : MarketTypeMsg) : MarketTypeMsg.dec (MarketTypeMsg.enc m) = .ok m := by
  cases m <;> rfl

theorem decOpt_pf (c : PumpFunContextMsg) :
    decOpt PumpFunContextMsg.dec (PumpFunContextMsg.enc c) = .ok (some c) := rfl

theorem decOpt_ps (c : PumpSwapContextMsg) :
    decOpt PumpSwapContextMsg.dec (PumpSwapContextMsg.enc c) = .ok (some c) := by
  obtain ⟨p, gc⟩ := c
  cases gc <;> rfl

theorem decOpt_dbc (c : MeteoraDbcContextMsg) :
    decOpt MeteoraDbcContextMsg.dec (MeteoraDbcContextMsg.enc c) = .ok (some c) := rfl

theorem decOpt_damm (c : MeteoraDammV2ContextMsg) :
    decOpt MeteoraDammV2ContextMsg.dec (MeteoraDammV2ContextMsg.enc c) = .ok (some c) := rfl

theorem decOpt_rl (c : RaydiumLaunchpadContextMsg) :
    decOpt RaydiumLaunchpadContextMsg.dec (RaydiumLaunchpadContextMsg.enc c) = .ok (some c) := rfl

theorem decOpt_rc (c : RaydiumCpmmContextMsg) :
    decOpt RaydiumCpmmContextMsg.dec (RaydiumCpmmContextMsg.enc c) = .ok (some c) := rfl

attribute [simp] ok_bind lookup_cons_self lookup_cons_ne lookup_opt_ne
  lookup_opt_end_ne collect_entry collect_opt collect_opt_end collect_nil
  reqField_cons_self reqField_cons_ne reqField_opt_ne optJsonField_cons_self
  optJsonField_cons_ne optJsonField_opt_ne optJsonField_opt_self
  optJsonField_opt_end_self defField_cons_self defField_cons_ne defField_nil
  extract_tag_here extract_entry extract_opt extract_opt_end extract_done
  decOpt_u64 decOpt_jstr decStr_jstr mt_rt decOpt_pf decOpt_ps decOpt_dbc
  decOpt_damm decOpt_rl decOpt_rc

/-- Round trip of MarketContextMsg through serialize and deserialize, for
every value, including values violating the single-payload invariant. -/
theorem ctx_rt (c : MarketContextMsg) :
    MarketContextMsg.dec (MarketContextMsg.enc c) = .ok c := by
  obtain ⟨mt, o1, o2, o3, o4, o5, o6⟩ := c
  simp [MarketContextMsg.enc, MarketContextMsg.dec, canonOf,
    collect_entry, collect_opt, collect_opt_end, collect_nil,
    reqField_cons_self, reqField_cons_ne, reqField_opt_ne,
    optJsonField_cons_self, optJsonField_cons_ne, optJsonField_opt_ne,
    optJsonField_opt_self, optJsonField_opt_end_self,
    lookup_cons_self, lookup_cons_ne, lookup_opt_ne, lookup_opt_end_ne,
    mt_rt, ok_bind, decOpt_pf, decOpt_ps, decOpt_dbc, decOpt_damm, decOpt_rl, decOpt_rc]

theorem decOpt_ctx (c : MarketContextMsg) :
    decOpt MarketContextMsg.dec (MarketContextMsg.enc c) = .ok (some c) := by
  show (MarketContextMsg.dec (MarketContextMsg.enc c)).map some = .ok (some c)
  rw [ctx_rt]
  rfl

theorem strategy_rt (s : StrategyConfigMsg) (h1 : s.target_profit_pct.isFinite = true)
    (h2 : s.stop_loss_pct.isFinite = true) :
    StrategyConfigMsg.dec (StrategyConfigMsg.enc s) = .ok s := by
  obtain ⟨f1, f2, dl⟩ := s
  rcases f1 with q1 | _ | _ | _ <;> rcases f2 with q2 | _ | _ | _ <;>
    first
      | rfl
      | simp [F64.isFinite] at h1 h2

theorem limits_rt (l : LimitsMsg) (h : l.Wf) : LimitsMsg.dec (LimitsMsg.enc l) = .ok l := by
  obtain ⟨a, b, c, d, e, f⟩ := l
  obtain ⟨h1, _, h3, h4, h5, h6⟩ := h
  simp only [LimitsMsg.Wf] at h1 h3 h4 h5 h6
  simp [LimitsMsg.enc, LimitsMsg.dec, canonOf, encU64,
    collect_entry, collect_nil, ok_bind,
    reqField_cons_self, reqField_cons_ne,
    defField_cons_self, defField_cons_ne,
    lookup_cons_self, lookup_cons_ne,
    decU32_ok _ h1, decU32_ok _ h3, decU32_ok _ h4, decU32_ok _ h5, decU32_ok _ h6,
    decU64]

/-- Round trip of every constructible ClientMessage whose float fields are
finite. -/
theorem client_rt (c : ClientMessage) (h : c.Wf) :
    ClientMessage.dec (ClientMessage.enc c) = .ok c := by
  cases c with
  | Ping t => rfl
  | Configure ws s =>
    obtain ⟨h1, h2, _⟩ := h
    simp [ClientMessage.enc, ClientMessage.dec, canonOf, decWallets_arr,
      strategy_rt _ h1 h2]
  | UpdateStrategy s =>
    obtain ⟨h1, h2, _⟩ := h
    simp [ClientMessage.enc, ClientMessage.dec, canonOf, strategy_rt _ h1 h2]
  | ClosePosition pid ta =>
    simp [ClientMessage.enc, ClientMessage.dec, canonOf]
  | RequestExitSignal pid ta sl =>
    obtain ⟨_, hsl⟩ := h
    cases sl with
    | none => simp [ClientMessage.enc, ClientMessage.dec, canonOf]
    | some s =>
      have hs : s < 2 ^ 16 := hsl s rfl
      simp [ClientMessage.enc, ClientMessage.dec, canonOf, decOpt_u16 _ hs]

/-- Round trip of every constructible ServerMessage whose float fields are
finite (no ServerMessage carries a float field, so the condition is just
constructibility). -/
theorem server_rt (m : ServerMessage) (h : m.Wf) :
    ServerMessage.dec (ServerMessage.enc m) = .ok m := by
  cases m with
  | HelloOk sid st l =>
    obtain ⟨_, _, hl⟩ := h
    simp [ServerMessage.enc, ServerMessage.dec, canonOf, encU64, decU64,
      limits_rt _ hl]
  | Pong st => rfl
  | Error c msg => rfl
  | PnlUpdate pid pu prc st =>
    obtain ⟨_, hp1, hp2, _, _⟩ := h
    simp [ServerMessage.enc, ServerMessage.dec, canonOf, encU64, decU64,
      decI64_rt _ hp1 hp2]
  | BalanceUpdate w mi ta tp tk sl =>
    simp [ServerMessage.enc, ServerMessage.dec, canonOf, encU64, decU64]
  | PositionOpened pid w mi ta tp tk eq mc sl =>
    simp [ServerMessage.enc, ServerMessage.dec, canonOf, encU64, decU64, decOpt_ctx]
  | PositionClosed pid w mi ta r sl =>
    simp [ServerMessage.enc, ServerMessage.dec, canonOf, encU64, decU64]
  | ExitSignalWithTx sid pid w mi ta tp pt pu r tr mc tx =>
    obtain ⟨_, _, _, hp1, hp2, _⟩ := h
    simp [ServerMessage.enc, ServerMessage.dec, canonOf, encU64, decU64,
      decI64_rt _ hp1 hp2, decOpt_ctx]

/-! ## Claims -/

/-- Claim C1, as stated, is false: a constructible value carrying a
non-finite float does not round-trip.  At the concrete input
UpdateStrategy with target_profit_pct = positive infinity, encoding
succeeds (serde_json writes the non-finite float as null) and decoding the
result fails, so encode-then-decode does not return the original value. -/
theorem C1_claim_false :
    ClientMessage.from_text (ClientMessage.enc
      (.UpdateStrategy ⟨.inf, .finite (3 / 2), 45⟩)) =
      .error "invalid type: expected f64" := rfl

/-- Claim C1 (amended): for every constructible ClientMessage and
ServerMessage value whose floating-point fields are finite (including
values carrying every MarketContextMsg variant), encoding to JSON text and
then decoding the resulting text yields a value equal to the original. -/
theorem C1_round_trip :
    (∀ c : ClientMessage, c.Wf → ClientMessage.from_text (ClientMessage.enc c) = .ok c) ∧
    (∀ m : ServerMessage, m.Wf → ServerMessage.from_text (ServerMessage.enc m) = .ok m) :=
  ⟨fun c h => client_rt c h, fun m h => server_rt m h⟩

/-- Witness for C1: the round trip evaluated at a concrete ClientMessage
and at a concrete market-context-carrying ServerMessage. -/
theorem C1_round_trip_witness :
    ClientMessage.from_text (ClientMessage.enc (.Ping 123)) = .ok (.Ping 123) ∧
    ServerMessage.from_text (ServerMessage.enc
      (.PositionOpened 1 "W" "M" "T" none 100 50
        (some ⟨.PumpFun, some ⟨⟩, none, none, none, none, none⟩) 999)) =
      .ok (.PositionOpened 1 "W" "M" "T" none 100 50
        (some ⟨.PumpFun, some ⟨⟩, none, none, none, none, none⟩) 999) :=
  ⟨C1_round_trip.1 _ (by show (123 : ℕ) < 2 ^ 64; decide),
    C1_round_trip.2 _ (by exact ⟨by decide, by decide, by decide, by decide⟩)⟩

/-- Claim C2, as stated, is false: encoding emits every sibling field that
is Some, whether or not it matches market_type.  At the concrete input
with market_type = pump_fun but a pumpswap payload present, the encoded
object carries the non-matching sibling key pumpswap and not the matching
key pumpfun. -/
theorem C2_claim_false :
    Json.objKeys (MarketContextMsg.enc
      ⟨.PumpFun, none, some ⟨"P", none⟩, none, none, none, none⟩) =
      ["market_type", "pumpswap"] := rfl

/-- Claim C2 (amended): for every MarketContextMsg value satisfying the
producer invariant (the one sibling matching market_type is present and
all others are absent), encoding emits the market_type field and only the
matching sibling field; the absent siblings are entirely omitted and never
emitted as null.  (For invariant-violating values the encoder emits
exactly the siblings that are present.) -/
theorem C2_matching_sibling_only :
    (∀ p, MarketContextMsg.enc ⟨.PumpFun, some p, none, none, none, none, none⟩ =
      .jobj [("market_type", .jstr "pump_fun"), ("pumpfun", PumpFunContextMsg.enc p)]) ∧
    (∀ p, MarketContextMsg.enc ⟨.PumpSwap, none, some p, none, none, none, none⟩ =
      .jobj [("market_type", .jstr "pump_swap"), ("pumpswap", PumpSwapContextMsg.enc p)]) ∧
    (∀ p, MarketContextMsg.enc ⟨.MeteoraDbc, none, none, some p, none, none, none⟩ =
      .jobj [("market_type", .jstr "meteora_dbc"), ("meteora_dbc", MeteoraDbcContextMsg.enc p)]) ∧
    (∀ p, MarketContextMsg.enc ⟨.MeteoraDammV2, none, none, none, some p, none, none⟩ =
      .jobj [("market_type", .jstr "meteora_damm_v2"),
        ("meteora_damm_v2", MeteoraDammV2ContextMsg.enc p)]) ∧
    (∀ p, MarketContextMsg.enc ⟨.RaydiumLaunchpad, none, none, none, none, some p, none⟩ =
      .jobj [("market_type", .jstr "raydium_launchpad"),
        ("raydium_launchpad", RaydiumLaunchpadContextMsg.enc p)]) ∧
    (∀ p, MarketContextMsg.enc ⟨.RaydiumCpmm, none, none, none, none, none, some p⟩ =
      .jobj [("market_type", .jstr "raydium_cpmm"),
        ("raydium_cpmm", RaydiumCpmmContextMsg.enc p)]) :=
  ⟨fun _ => rfl, fun _ => rfl, fun _ => rfl, fun _ => rfl, fun _ => rfl, fun _ => rfl⟩

/-- Claim C3: decoding a MarketContextMsg succeeds for any subset of the
six sibling fields being present (zero, one, or several, matching
market_type or not), reconstructing exactly the present payloads; and a
present sibling whose shape does not match its record type (here a
meteora_dbc object without its required pool field) is a decode error. -/
theorem C3_decode_subsets :
    (∀ (mt : MarketTypeMsg) (o1 : Option PumpFunContextMsg)
       (o2 : Option PumpSwapContextMsg) (o3 : Option MeteoraDbcContextMsg)
       (o4 : Option MeteoraDammV2ContextMsg) (o5 : Option RaydiumLaunchpadContextMsg)
       (o6 : Option RaydiumCpmmContextMsg),
      MarketContextMsg.dec (.jobj ([("market_type", mt.enc)]
        ++ optField "pumpfun" PumpFunContextMsg.enc o1
        ++ optField "pumpswap" PumpSwapContextMsg.enc o2
        ++ optField "meteora_dbc" MeteoraDbcContextMsg.enc o3
        ++ optField "meteora_damm_v2" MeteoraDammV2ContextMsg.enc o4
        ++ optField "raydium_launchpad" RaydiumLaunchpadContextMsg.enc o5
        ++ optField "raydium_cpmm" RaydiumCpmmContextMsg.enc o6)) =
        .ok ⟨mt, o1, o2, o3, o4, o5, o6⟩) ∧
    MarketContextMsg.dec (.jobj [("market_type", .jstr "meteora_dbc"),
      ("meteora_dbc", .jobj [("config", .jstr "C"), ("quote_mint", .jstr "Q")])]) =
      .error "missing field pool" :=
  ⟨fun mt o1 o2 o3 o4 o5 o6 => ctx_rt ⟨mt, o1, o2, o3, o4, o5, o6⟩, rfl⟩

/-- Claim C4: decoding a configure object carrying the legacy alias
wallet_pubkey with a single string gives the same result as decoding one
carrying wallet_pubkeys with the one-element sequence (whatever the
strategy sub-document is); and encoding a Configure value always emits the
wallet_pubkeys key as a sequence and never the wallet_pubkey alias. -/
theorem C4_wallet_alias :
    (∀ j : Json,
      ClientMessage.from_text (.jobj [("type", .jstr "configure"),
        ("wallet_pubkey", .jstr "A"), ("strategy", j)]) =
      ClientMessage.from_text (.jobj [("type", .jstr "configure"),
        ("wallet_pubkeys", .jarr [.jstr "A"]), ("strategy", j)])) ∧
    (∀ (ws : List String) (s : StrategyConfigMsg),
      ClientMessage.enc (.Configure ws s) = .jobj [("type", .jstr "configure"),
        ("wallet_pubkeys", .jarr (ws.map .jstr)), ("strategy", s.enc)]) :=
  ⟨fun _ => rfl, fun _ _ => rfl⟩

/-- Claim C5: an object tagged with the legacy value sell_now decodes to a
RequestExitSignal carrying exactly the optional fields given in the input
(absent ones as None), and encoding a RequestExitSignal emits the tag
request_exit_signal, never sell_now. -/
theorem C5_sell_now :
    (∀ (pid : Option ℕ) (ta : Option String) (sl : Option ℕ),
      (∀ s ∈ sl, s < 2 ^ 16) →
      ClientMessage.from_text (.jobj (("type", .jstr "sell_now")
        :: (optField "position_id" encU64 pid
          ++ optField "token_account" .jstr ta
          ++ optField "slippage_bps" encU64 sl))) =
        .ok (.RequestExitSignal pid ta sl)) ∧
    (∀ (pid : Option ℕ) (ta : Option String) (sl : Option ℕ),
      ClientMessage.enc (.RequestExitSignal pid ta sl) =
        .jobj (("type", .jstr "request_exit_signal")
          :: (optField "position_id" encU64 pid
            ++ optField "token_account" .jstr ta
            ++ optField "slippage_bps" encU64 sl))) := by
  constructor
  · intro pid ta sl hsl
    cases sl with
    | none => simp [ClientMessage.from_text, ClientMessage.dec, canonOf]
    | some s =>
      have hs : s < 2 ^ 16 := hsl s rfl
      simp [ClientMessage.from_text, ClientMessage.dec, canonOf, decOpt_u16 _ hs]
  · intro pid ta sl
    rfl

/-- Witness for C5: the spec's concrete example input, with the
slippage-bound hypothesis discharged at 42. -/
theorem C5_sell_now_witness :
    ClientMessage.from_text (.jobj [("type", .jstr "sell_now"),
      ("position_id", .jnumU 123), ("slippage_bps", .jnumU 42)]) =
      .ok (.RequestExitSignal (some 123) none (some 42)) :=
  C5_sell_now.1 (some 123) none (some 42) (by decide)

/-- Claim C6: a Limits object missing the three newer fields decodes with
0 for each of them, while omitting any one of hi_capacity, pnl_flush_ms or
max_positions_per_session is a decode failure. -/
theorem C6_limits_defaults :
    (∀ h p m : ℕ, h < 2 ^ 32 → m < 2 ^ 32 →
      LimitsMsg.dec (.jobj [("hi_capacity", .jnumU h), ("pnl_flush_ms", .jnumU p),
        ("max_positions_per_session", .jnumU m)]) = .ok ⟨h, p, m, 0, 0, 0⟩) ∧
    LimitsMsg.dec (.jobj [("pnl_flush_ms", .jnumU 100),
      ("max_positions_per_session", .jnumU 8)]) = .error "missing field hi_capacity" ∧
    LimitsMsg.dec (.jobj [("hi_capacity", .jnumU 1),
      ("max_positions_per_session", .jnumU 8)]) = .error "missing field pnl_flush_ms" ∧
    LimitsMsg.dec (.jobj [("hi_capacity", .jnumU 1), ("pnl_flush_ms", .jnumU 100)]) =
      .error "missing field max_positions_per_session" := by
  refine ⟨?_, rfl, rfl, rfl⟩
  intro h p m hh hm
  simp [LimitsMsg.dec, canonOf, decU32_ok _ hh, decU32_ok _ hm, decU64]

/-- Witness for C6: the default-filling decode evaluated at concrete
in-range required fields. -/
theorem C6_limits_defaults_witness :
    LimitsMsg.dec (.jobj [("hi_capacity", .jnumU 256), ("pnl_flush_ms", .jnumU 100),
      ("max_positions_per_session", .jnumU 256)]) = .ok ⟨256, 100, 256, 0, 0, 0⟩ :=
  C6_limits_defaults.1 256 100 256 (by decide) (by decide)

/-- Claim C7: encoding ClosePosition with both options None emits neither
optional key and no nulls, and decoding the close_position object with the
keys absent, or with both keys explicitly null, yields that same all-None
value. -/
theorem C7_close_position_omission :
    ClientMessage.enc (.ClosePosition none none) =
      .jobj [("type", .jstr "close_position")] ∧
    ClientMessage.from_text (.jobj [("type", .jstr "close_position")]) =
      .ok (.ClosePosition none none) ∧
    ClientMessage.from_text (.jobj [("type", .jstr "close_position"),
      ("position_id", .jnull), ("token_account", .jnull)]) =
      .ok (.ClosePosition none none) :=
  ⟨rfl, rfl, rfl⟩

/-- Claim C8: every unsigned 64-bit value, in a u64 field such as
Ping.client_time_ms or PositionOpened.tokens, encodes as a JSON integer
token and decodes back to the identical value — exact across the whole
u64 range, because the number token carries the integer itself. -/
theorem C8_u64_exact :
    ∀ n : ℕ, n < 2 ^ 64 →
      ClientMessage.enc (.Ping n) =
        .jobj [("type", .jstr "ping"), ("client_time_ms", .jnumU n)] ∧
      ClientMessage.from_text (ClientMessage.enc (.Ping n)) = .ok (.Ping n) ∧
      ServerMessage.enc (.PositionOpened 1 "W" "M" "T" none n 50 none 999) =
        .jobj [("type", .jstr "position_opened"), ("position_id", .jnumU 1),
          ("wallet_pubkey", .jstr "W"), ("mint", .jstr "M"),
          ("token_account", .jstr "T"), ("tokens", .jnumU n),
          ("entry_quote_units", .jnumU 50), ("slot", .jnumU 999)] ∧
      ServerMessage.from_text
        (ServerMessage.enc (.PositionOpened 1 "W" "M" "T" none n 50 none 999)) =
        .ok (.PositionOpened 1 "W" "M" "T" none n 50 none 999) :=
  fun n hn =>
    ⟨rfl, client_rt _ hn, rfl,
      server_rt _ ⟨by decide, hn, by decide, by decide⟩⟩

/-- Witness for C8 at a value above 2 to the 53, where a double-based
representation would lose precision. -/
theorem C8_u64_exact_witness :
    ClientMessage.from_text (ClientMessage.enc (.Ping (2 ^ 63 + 7))) =
      .ok (.Ping (2 ^ 63 + 7)) :=
  (C8_u64_exact (2 ^ 63 + 7) (by decide)).2.1

/-- Claim C9, as stated, is false: encoding a ClientMessage whose strategy
holds NaN does not fail with an EncodeError; serde_json succeeds and
writes null for the non-finite float, as this concrete evaluation
shows. -/
theorem C9_claim_false :
    ClientMessage.to_text (.UpdateStrategy ⟨.nan, .finite 1, 45⟩) =
      .ok (.jobj [("type", .jstr "update_strategy"),
        ("strategy", .jobj [("target_profit_pct", .jnull),
          ("stop_loss_pct", .jnumF 1), ("deadline_timeout_sec", .jnumU 45)])]) := rfl

/-- Claim C9 (amended): encoding a ClientMessage whose StrategyConfigMsg
holds a non-finite value in target_profit_pct or in stop_loss_pct — in
either strategy-carrying variant, UpdateStrategy or Configure — succeeds:
no EncodeError is produced, and the non-finite field is written as null
(the other fields are encoded as usual; decoding such output then fails at
the null float field). -/
theorem C9_nonfinite_encodes_null :
    (∀ (f other : F64) (dl : ℕ) (ws : List String), f.isFinite = false →
      ClientMessage.to_text (.UpdateStrategy ⟨f, other, dl⟩) =
        .ok (.jobj [("type", .jstr "update_strategy"),
          ("strategy", .jobj [("target_profit_pct", .jnull),
            ("stop_loss_pct", encF64 other), ("deadline_timeout_sec", .jnumU dl)])]) ∧
      ClientMessage.to_text (.Configure ws ⟨f, other, dl⟩) =
        .ok (.jobj [("type", .jstr "configure"),
          ("wallet_pubkeys", .jarr (ws.map .jstr)),
          ("strategy", .jobj [("target_profit_pct", .jnull),
            ("stop_loss_pct", encF64 other), ("deadline_timeout_sec", .jnumU dl)])])) ∧
    (∀ (f other : F64) (dl : ℕ) (ws : List String), f.isFinite = false →
      ClientMessage.to_text (.UpdateStrategy ⟨other, f, dl⟩) =
        .ok (.jobj [("type", .jstr "update_strategy"),
          ("strategy", .jobj [("target_profit_pct", encF64 other),
            ("stop_loss_pct", .jnull), ("deadline_timeout_sec", .jnumU dl)])]) ∧
      ClientMessage.to_text (.Configure ws ⟨other, f, dl⟩) =
        .ok (.jobj [("type", .jstr "configure"),
          ("wallet_pubkeys", .jarr (ws.map .jstr)),
          ("strategy", .jobj [("target_profit_pct", encF64 other),
            ("stop_loss_pct", .jnull), ("deadline_timeout_sec", .jnumU dl)])])) := by
  constructor
  · intro f other dl ws hf
    rcases f with q | - | - | -
    · exact absurd hf (by simp [F64.isFinite])
    · exact ⟨rfl, rfl⟩
    · exact ⟨rfl, rfl⟩
    · exact ⟨rfl, rfl⟩
  · intro f other dl ws hf
    rcases f with q | - | - | -
    · exact absurd hf (by simp [F64.isFinite])
    · exact ⟨rfl, rfl⟩
    · exact ⟨rfl, rfl⟩
    · exact ⟨rfl, rfl⟩

/-- Witness for C9: NaN in target_profit_pct of an UpdateStrategy, and
positive infinity in stop_loss_pct of a Configure, both encode
successfully with null in the non-finite slot. -/
theorem C9_nonfinite_encodes_null_witness :
    ClientMessage.to_text (.UpdateStrategy ⟨.nan, .finite 2, 45⟩) =
      .ok (.jobj [("type", .jstr "update_strategy"),
        ("strategy", .jobj [("target_profit_pct", .jnull),
          ("stop_loss_pct", encF64 (.finite 2)), ("deadline_timeout_sec", .jnumU 45)])]) ∧
    ClientMessage.to_text (.Configure ["W"] ⟨.finite 2, .inf, 45⟩) =
      .ok (.jobj [("type", .jstr "configure"), ("wallet_pubkeys", .jarr [.jstr "W"]),
        ("strategy", .jobj [("target_profit_pct", encF64 (.finite 2)),
          ("stop_loss_pct", .jnull), ("deadline_timeout_sec", .jnumU 45)])]) :=
  ⟨(C9_nonfinite_encodes_null.1 .nan (.finite 2) 45 ["W"] rfl).1,
    (C9_nonfinite_encodes_null.2 .inf (.finite 2) 45 ["W"] rfl).2⟩

/-- Claim C10: a configure object carrying both wallet_pubkeys and the
legacy alias wallet_pubkey fails to decode with a duplicate-field error
(the alias resolves to the same field), even though the rest of the
message is valid. -/
theorem C10_duplicate_wallet_fields :
    ClientMessage.from_text (.jobj [("type", .jstr "configure"),
      ("wallet_pubkeys", .jarr [.jstr "A"]), ("wallet_pubkey", .jstr "B"),
      ("strategy", .jobj [("target_profit_pct", .jnumF 5),
        ("stop_loss_pct", .jnumF (3 / 2)), ("deadline_timeout_sec", .jnumU 45)])]) =
      .error "duplicate field wallet_pubkeys" := rfl

end LaserSellProto
